import Mathlib

/-!
Verification of the trace-ingestion core of promptflow
(promptflow/_sdk/entities/_trace.py).

Shallow embedding conventions:
- Python dicts with string keys are embedded as association lists
  (List (String × String)); lookup is first-match, which agrees with
  Python dicts because every dict built here has unique keys.
- Python datetime values are embedded as integer epoch timestamps; the
  subtraction in total_seconds becomes integer subtraction, and the
  datetime.isoformat rendering is embedded as an injective rendering of
  the integer to a string.
- json.dumps followed by json.loads is the identity on the values stored
  here, so the Event store keeps the event value itself as its data.
- Python exceptions become an Except monad: KeyError from direct dict
  indexing, ValueError from int() on a non-numeric string, and the two
  NotFound errors of the store collaborators.
- The SQL-backed stores (promptflow._sdk._orm.trace) are not under src;
  they are modelled from the spec (section 6) as lists of rows.
- The uuid4 generator is modelled as a counter producing pairwise
  distinct string identifiers.
-/

/-- Modelled from the spec: constant from promptflow._constants (module not
under src); the attribute key holding an explicit line run id. -/
def SpanAttributeFieldName.LINE_RUN_ID : String := "line_run_id"

/-- Modelled from the spec: constant from promptflow._constants; the
attribute key holding a referenced line run id. -/
def SpanAttributeFieldName.REFERENCED_LINE_RUN_ID : String := "referenced.line_run_id"

/-- Modelled from the spec: constant from promptflow._constants; the
attribute key holding a referenced batch run id. -/
def SpanAttributeFieldName.REFERENCED_BATCH_RUN_ID : String := "referenced.batch_run_id"

/-- Modelled from the spec: constant from promptflow._constants; the
attribute key holding a batch run id. -/
def SpanAttributeFieldName.BATCH_RUN_ID : String := "batch_run_id"

/-- Modelled from the spec: constant from promptflow._constants; the
attribute key holding the line number. -/
def SpanAttributeFieldName.LINE_NUMBER : String := "line_number"

/-- Modelled from the spec: constant from promptflow._constants; the
attribute key holding the session id. -/
def SpanAttributeFieldName.SESSION_ID : String := "session_id"

/-- Modelled from the spec: constant from promptflow._constants; the
attribute key holding the semantic span type. -/
def SpanAttributeFieldName.SPAN_TYPE : String := "span_type"

/-- Modelled from the spec: constant from promptflow._constants; the
attribute key holding the completion token count. -/
def SpanAttributeFieldName.COMPLETION_TOKEN_COUNT : String := "__computed__.cumulative_token_count.completion"

/-- Modelled from the spec: constant from promptflow._constants; the
attribute key holding the prompt token count. -/
def SpanAttributeFieldName.PROMPT_TOKEN_COUNT : String := "__computed__.cumulative_token_count.prompt"

/-- Modelled from the spec: constant from promptflow._constants; the
attribute key holding the total token count. -/
def SpanAttributeFieldName.TOTAL_TOKEN_COUNT : String := "__computed__.cumulative_token_count.total"

/-- Modelled from the spec: constant from promptflow._constants; the
resource attribute key naming the collection. -/
def SpanResourceAttributesFieldName.COLLECTION : String := "collection"

/-- Modelled from the spec: constant from promptflow._constants; the
resource attribute key naming the experiment. -/
def SpanResourceAttributesFieldName.EXPERIMENT_NAME : String := "experiment.name"

/-- Modelled from the spec: constant from promptflow._constants; the event
attribute key that holds the reference id after externalization. -/
def SPAN_EVENTS_ATTRIBUTES_EVENT_ID : String := "event.id"

/-- Modelled from the spec: constant from promptflow._sdk._constants; the
event attribute key holding the JSON payload. -/
def SPAN_EVENTS_ATTRIBUTE_PAYLOAD : String := "payload"

/-- Modelled from the spec: constant from promptflow._sdk._constants; the
reserved event name carrying pipeline inputs. -/
def SPAN_EVENTS_NAME_PF_INPUTS : String := "promptflow.function.inputs"

/-- Modelled from the spec: constant from promptflow._sdk._constants; the
reserved event name carrying the pipeline output. -/
def SPAN_EVENTS_NAME_PF_OUTPUT : String := "promptflow.function.output"

/-- Modelled from the spec: constant from promptflow._sdk._constants; the
default collection name. -/
def TRACE_DEFAULT_COLLECTION : String := "default"

/-- Modelled from the spec: constant from promptflow._constants; the
placeholder status of a line run before its root span is seen. -/
def RUNNING_LINE_RUN_STATUS : String := "Running"

/-- The Python exceptions that the embedded code can raise or receive:
KeyError from direct dict indexing, ValueError from int() on a
non-numeric string, LineRunNotFoundError from the LineRun store, and the
NotFound of the Event store. -/
inductive PyError where
  | keyError : String → PyError
  | valueError : PyError
  | lineRunNotFound : PyError
  | eventNotFound : PyError
deriving DecidableEq, Repr

/-- Decidable equality for Except results, used to evaluate the
embedded operations on concrete inputs. -/
instance exceptDecEq {e a : Type} [DecidableEq e] [DecidableEq a] :
    DecidableEq (Except e a) := fun x y =>
  match x, y with
  | .ok v, .ok w =>
    if h : v = w then isTrue (by rw [h]) else isFalse (by intro hc; cases hc; exact h rfl)
  | .error v, .error w =>
    if h : v = w then isTrue (by rw [h]) else isFalse (by intro hc; cases hc; exact h rfl)
  | .ok v, .error w => isFalse (by intro hc; cases hc)
  | .error v, .ok w => isFalse (by intro hc; cases hc)

/-- One span event, a dict with keys name, timestamp and attributes
(timestamp is kept as its isoformat string, as the decoder stores it). -/
structure SpanEvent where
  name : String
  timestamp : String
  attributes : List (String × String)
deriving DecidableEq, Repr

/-- One span link, a dict with keys context and attributes. -/
structure SpanLink where
  context : List (String × String)
  attributes : List (String × String)
deriving DecidableEq, Repr

/-- The status dict of a span; the decoder always populates both keys, so
it is embedded as a two-field structure. -/
structure SpanStatus where
  status_code : String
  description : String
deriving DecidableEq, Repr

/-- The in-memory Span entity. Timestamps are integer epoch values.
The resource dict is represented by its attributes sub-dict, the only
part this module reads. The field external_event_ids embeds the private
attribute of the source that starts with one underscore; Span objects
are constructed with it empty and only load_events appends to it. -/
structure Span where
  trace_id : String
  span_id : String
  name : String
  context : List (String × String)
  kind : String
  parent_id : Option String
  start_time : Int
  end_time : Int
  status : SpanStatus
  attributes : List (String × String)
  links : List SpanLink
  events : List SpanEvent
  resource_attributes : List (String × String)
  external_event_ids : List String
deriving DecidableEq, Repr

/-- The cumulative_token_count dict of a line run, with its three keys. -/
structure CumulativeTokenCount where
  completion : Int
  prompt : Int
  total : Int
deriving DecidableEq, Repr

/-- The LineRun dataclass. The inputs and outputs payloads are kept as
their JSON source strings (json.loads is a bijection on the payloads
handled here). The evaluations field is attached out of band by code no
claim touches and is omitted. The ORM row type copies these fields one
to one, so the same structure doubles as the stored row. -/
structure LineRun where
  line_run_id : String
  trace_id : String
  root_span_id : Option String
  inputs : Option String
  outputs : Option String
  start_time : Int
  end_time : Option Int
  status : String
  duration : Option Int
  name : Option String
  kind : Option String
  collection : String
  cumulative_token_count : Option CumulativeTokenCount
  parent_id : Option String
  run : Option String
  line_number : Option String
  experiment : Option String
  session_id : Option String
deriving DecidableEq, Repr

/-- One row of the Event store, mirroring ORMEvent(event_id, trace_id,
span_id, data); data holds the event value (json round trip elided). -/
structure ORMEvent where
  event_id : String
  trace_id : String
  span_id : String
  data : SpanEvent
deriving DecidableEq, Repr

/-- Modelled from the spec: the Event store (promptflow._sdk._orm.trace,
not under src) as a list of rows, newest first, plus the state of the
uuid generator as a counter of ids handed out so far. -/
structure EventDB where
  rows : List ORMEvent
  nextId : Nat
deriving DecidableEq, Repr

/-- Models str(uuid.uuid4()): the id produced by the n-th call of the
generator; distinct calls give distinct strings. -/
def genEventId (n : Nat) : String := String.mk (List.replicate (n + 1) 'u')

/-- Modelled from the spec: EventStore.get, which fails with NotFound on
an unknown id; Event.get then returns json.loads of the stored data,
which is the stored event value itself. -/
def Event.get (db : EventDB) (eid : String) : Except PyError SpanEvent :=
  match db.rows.find? (fun r => r.event_id == eid) with
  | some r => .ok r.data
  | none => .error .eventNotFound

/-- One iteration of the persistence part of the externalization loop:
draw a fresh id from the uuid generator and persist the row
ORMEvent(event_id, trace_id, span_id, json.dumps(event)). -/
def pushEvent (tid sid : String) (db : EventDB) (e : SpanEvent) : EventDB :=
  { rows := { event_id := genEventId db.nextId, trace_id := tid, span_id := sid, data := e } :: db.rows,
    nextId := db.nextId + 1 }

/-- The loop body of Span persist_events: for each event generate a fresh
id, persist (event_id, trace_id, span_id, json.dumps(event)) to the
Event store, then rewrite the event attributes in place to the single
reference entry. The dump happens before the rewrite, so the stored data
is the event as it was when this iteration started. -/
def persist_events_loop (tid sid : String) : EventDB → List SpanEvent → EventDB × List SpanEvent
  | db, [] => (db, [])
  | db, e :: rest =>
    let eid := genEventId db.nextId
    let db1 := pushEvent tid sid db e
    let (db2, rest2) := persist_events_loop tid sid db1 rest
    (db2, { e with attributes := [(SPAN_EVENTS_ATTRIBUTES_EVENT_ID, eid)] } :: rest2)

/-- Span persist_events: persist every event and replace its attributes
with the reference entry, in place. -/
def Span.persist_events (db : EventDB) (s : Span) : EventDB × Span :=
  let (db2, evs) := persist_events_loop s.trace_id s.span_id db s.events
  (db2, { s with events := evs })

/-- The loop body of Span load_events: read the reference id out of each
event attributes dict (KeyError when absent), record it, and fetch the
payload from the Event store. -/
def load_events_loop (db : EventDB) : List SpanEvent → Except PyError (List String × List SpanEvent)
  | [] => .ok ([], [])
  | e :: rest =>
    match e.attributes.lookup SPAN_EVENTS_ATTRIBUTES_EVENT_ID with
    | none => .error (.keyError SPAN_EVENTS_ATTRIBUTES_EVENT_ID)
    | some eid => do
      let d ← Event.get db eid
      let (ids, evs) ← load_events_loop db rest
      .ok (eid :: ids, d :: evs)

/-- Span load_events: resolve every event reference back to its payload,
appending the ids that were read to external_event_ids. -/
def Span.load_events (db : EventDB) (s : Span) : Except PyError Span := do
  let (ids, evs) ← load_events_loop db s.events
  .ok { s with events := evs, external_event_ids := s.external_event_ids ++ ids }

/-- Modelled from the spec: the LineRun store (promptflow._sdk._orm.trace,
not under src) is a table of rows; get by id returns the first row with
that line_run_id and fails with LineRunNotFoundError when there is
none. -/
def ORMLineRun.get (rows : List LineRun) (lrid : String) : Except PyError LineRun :=
  match rows.find? (fun r => r.line_run_id == lrid) with
  | some r => .ok r
  | none => .error .lineRunNotFound

/-- Modelled from the spec: persisting a new LineRun row inserts it into
the table. -/
def ORMLineRun.persistRow (lr : LineRun) (rows : List LineRun) : List LineRun :=
  rows ++ [lr]

/-- Modelled from the spec: updating a LineRun row overwrites every row
whose line_run_id matches with the new values. -/
def ORMLineRun.updateRow (lr : LineRun) (rows : List LineRun) : List LineRun :=
  rows.map (fun q => if q.line_run_id == lr.line_run_id then lr else q)

/-- Modelled from the spec: the lookup by (run, line_number) pair, which
returns the first matching row or none. -/
def ORMLineRun.get_with_run_and_line_number (rows : List LineRun) (run ln : String) : Option LineRun :=
  rows.find? (fun r => r.run == some run && r.line_number == some ln)

/-- LineRun determine_line_run_id: an explicit line_run_id attribute wins,
otherwise the trace id is the line run id. -/
def LineRun.determine_line_run_id (s : Span) : String :=
  match s.attributes.lookup SpanAttributeFieldName.LINE_RUN_ID with
  | some v => v
  | none => s.trace_id

/-- LineRun determine_parent_id: an explicit referenced line run id wins;
otherwise with a referenced batch run id the store is queried with that
run and the line_number attribute, which the source indexes directly, a
KeyError when absent; otherwise there is no parent. -/
def LineRun.determine_parent_id (rows : List LineRun) (s : Span) : Except PyError (Option String) :=
  match s.attributes.lookup SpanAttributeFieldName.REFERENCED_LINE_RUN_ID with
  | some v => .ok (some v)
  | none =>
    match s.attributes.lookup SpanAttributeFieldName.REFERENCED_BATCH_RUN_ID with
    | some runId =>
      match s.attributes.lookup SpanAttributeFieldName.LINE_NUMBER with
      | some ln =>
        .ok ((ORMLineRun.get_with_run_and_line_number rows runId ln).map (fun lr => lr.line_run_id))
      | none => .error (.keyError SpanAttributeFieldName.LINE_NUMBER)
    | none => .ok none

/-- The dict returned by LineRun parse_common_args. -/
structure CommonArgs where
  line_run_id : String
  trace_id : String
  start_time : Int
  collection : String
  parent_id : Option String
  run : Option String
  line_number : Option String
  experiment : Option String
  session_id : Option String
deriving DecidableEq, Repr

/-- LineRun parse_common_args: the nine fields shared by root and
non-root reconstruction; collection falls back to the default. -/
def LineRun.parse_common_args (rows : List LineRun) (s : Span) : Except PyError CommonArgs := do
  let pid ← LineRun.determine_parent_id rows s
  .ok
    { line_run_id := LineRun.determine_line_run_id s
      trace_id := s.trace_id
      start_time := s.start_time
      collection :=
        (s.resource_attributes.lookup SpanResourceAttributesFieldName.COLLECTION).getD
          TRACE_DEFAULT_COLLECTION
      parent_id := pid
      run := s.attributes.lookup SpanAttributeFieldName.BATCH_RUN_ID
      line_number := s.attributes.lookup SpanAttributeFieldName.LINE_NUMBER
      experiment := s.resource_attributes.lookup SpanResourceAttributesFieldName.EXPERIMENT_NAME
      session_id := s.attributes.lookup SpanAttributeFieldName.SESSION_ID }

/-- LineRun from_non_root_span: the placeholder aggregate. -/
def LineRun.from_non_root_span (rows : List LineRun) (s : Span) : Except PyError LineRun := do
  let ca ← LineRun.parse_common_args rows s
  .ok
    { line_run_id := ca.line_run_id
      trace_id := ca.trace_id
      root_span_id := none
      inputs := none
      outputs := none
      start_time := ca.start_time
      end_time := none
      status := RUNNING_LINE_RUN_STATUS
      duration := none
      name := none
      kind := none
      collection := ca.collection
      cumulative_token_count := none
      parent_id := ca.parent_id
      run := ca.run
      line_number := ca.line_number
      experiment := ca.experiment
      session_id := ca.session_id }

/-- The numeric value of one decimal digit character. -/
def charDigit (c : Char) : Option Nat :=
  if c = '0' then some 0 else if c = '1' then some 1 else if c = '2' then some 2
  else if c = '3' then some 3 else if c = '4' then some 4 else if c = '5' then some 5
  else if c = '6' then some 6 else if c = '7' then some 7 else if c = '8' then some 8
  else if c = '9' then some 9 else none

/-- Reading a nonempty digit string left to right. -/
def digitsToNatAux (acc : Nat) : List Char → Option Nat
  | [] => some acc
  | c :: cs =>
    match charDigit c with
    | some d => digitsToNatAux (acc * 10 + d) cs
    | none => none

/-- A nonempty all-digit character list as a natural number. -/
def digitsToNat : List Char → Option Nat
  | [] => none
  | l => digitsToNatAux 0 l

/-- Models the Python int() conversion of a string: an optional leading
minus sign followed by at least one decimal digit; anything else is a
ValueError, reported as none here. -/
def pyInt? (s : String) : Option Int :=
  match s.data with
  | '-' :: rest => (digitsToNat rest).map (fun n => -(n : Int))
  | l => (digitsToNat l).map (fun n => (n : Int))

/-- Models int(span.attributes.get(key, 0)): a missing attribute defaults
to the integer 0, a present one is parsed by int(), a ValueError when it
is not numeric. -/
def tokenCount (s : Span) (key : String) : Except PyError Int :=
  match s.attributes.lookup key with
  | none => .ok 0
  | some v =>
    match pyInt? v with
    | some n => .ok n
    | none => .error .valueError

/-- The scan of LineRun get_inputs_from_span and get_outputs_from_span:
the first event with the reserved name yields json.loads of its payload
attribute (a KeyError when the payload key is absent); no such event
yields none. -/
def payload_scan (nm : String) : List SpanEvent → Except PyError (Option String)
  | [] => .ok none
  | e :: rest =>
    if e.name == nm then
      match e.attributes.lookup SPAN_EVENTS_ATTRIBUTE_PAYLOAD with
      | some p => .ok (some p)
      | none => .error (.keyError SPAN_EVENTS_ATTRIBUTE_PAYLOAD)
    else payload_scan nm rest

/-- LineRun get_inputs_from_span. -/
def LineRun.get_inputs_from_span (s : Span) : Except PyError (Option String) :=
  payload_scan SPAN_EVENTS_NAME_PF_INPUTS s.events

/-- LineRun get_outputs_from_span. -/
def LineRun.get_outputs_from_span (s : Span) : Except PyError (Option String) :=
  payload_scan SPAN_EVENTS_NAME_PF_OUTPUT s.events

/-- LineRun from_root_span: the authoritative aggregate, with the token
count dict present only when the total count is strictly positive. -/
def LineRun.from_root_span (rows : List LineRun) (s : Span) : Except PyError LineRun := do
  let ca ← LineRun.parse_common_args rows s
  let completion ← tokenCount s SpanAttributeFieldName.COMPLETION_TOKEN_COUNT
  let prompt ← tokenCount s SpanAttributeFieldName.PROMPT_TOKEN_COUNT
  let total ← tokenCount s SpanAttributeFieldName.TOTAL_TOKEN_COUNT
  let ctc : Option CumulativeTokenCount :=
    if total > 0 then some { completion := completion, prompt := prompt, total := total } else none
  let inputs ← LineRun.get_inputs_from_span s
  let outputs ← LineRun.get_outputs_from_span s
  .ok
    { line_run_id := ca.line_run_id
      trace_id := ca.trace_id
      root_span_id := some s.span_id
      inputs := inputs
      outputs := outputs
      start_time := ca.start_time
      end_time := some s.end_time
      status := s.status.status_code
      duration := some (s.end_time - s.start_time)
      name := some s.name
      kind := some ((s.attributes.lookup SpanAttributeFieldName.SPAN_TYPE).getD s.kind)
      collection := ca.collection
      cumulative_token_count := ctc
      parent_id := ca.parent_id
      run := ca.run
      line_number := ca.line_number
      experiment := ca.experiment
      session_id := ca.session_id }

/-- LineRun try_create: get by id first; when that raises
LineRunNotFoundError, persist a new row; when a row exists, do nothing.
Any other exception escapes the except clause. -/
def LineRun.try_create (lr : LineRun) (rows : List LineRun) : Except PyError (List LineRun) :=
  match ORMLineRun.get rows lr.line_run_id with
  | .ok _ => .ok rows
  | .error .lineRunNotFound => .ok (ORMLineRun.persistRow lr rows)
  | .error e => .error e

/-- LineRun try_update: get by id first; when a row exists, update it
with these values; when the get raises LineRunNotFoundError, persist a
new row instead. -/
def LineRun.try_update (lr : LineRun) (rows : List LineRun) : Except PyError (List LineRun) :=
  match ORMLineRun.get rows lr.line_run_id with
  | .ok _ => .ok (ORMLineRun.updateRow lr rows)
  | .error .lineRunNotFound => .ok (ORMLineRun.persistRow lr rows)
  | .error e => .error e

/-- Span persist_line_run: a root span (no parent id) builds the
authoritative LineRun and tries update; a non-root span builds the
placeholder and tries create. -/
def Span.persist_line_run (rows : List LineRun) (s : Span) : Except PyError (List LineRun) :=
  match s.parent_id with
  | none => do
    let lr ← LineRun.from_root_span rows s
    lr.try_update rows
  | some _ => do
    let lr ← LineRun.from_non_root_span rows s
    lr.try_create rows

/-- The row stored by Span to_orm_object: empty attribute, link and event
collections are stored as null. -/
structure ORMSpan where
  trace_id : String
  span_id : String
  name : String
  context : List (String × String)
  kind : String
  parent_id : Option String
  start_time : Int
  end_time : Int
  status : SpanStatus
  attributes : Option (List (String × String))
  links : Option (List SpanLink)
  events : Option (List SpanEvent)
  resource_attributes : List (String × String)
deriving DecidableEq, Repr

/-- Span to_orm_object. -/
def Span.to_orm_object (s : Span) : ORMSpan :=
  { trace_id := s.trace_id
    span_id := s.span_id
    name := s.name
    context := s.context
    kind := s.kind
    parent_id := s.parent_id
    start_time := s.start_time
    end_time := s.end_time
    status := s.status
    attributes := if s.attributes.length > 0 then some s.attributes else none
    links := if s.links.length > 0 then some s.links else none
    events := if s.events.length > 0 then some s.events else none
    resource_attributes := s.resource_attributes }

/-- The three stores the orchestrator writes, plus the uuid generator
state carried by the Event store model. -/
structure Stores where
  lineRuns : List LineRun
  events : EventDB
  spans : List ORMSpan
deriving DecidableEq, Repr

/-- Span persist, the ingestion orchestrator: line-run upsert first, then
event externalization, then span persistence. -/
def Span.persistFull (st : Stores) (s : Span) : Except PyError Stores := do
  let rows ← Span.persist_line_run st.lineRuns s
  let (edb, s2) := Span.persist_events st.events s
  .ok { lineRuns := rows, events := edb, spans := st.spans ++ [s2.to_orm_object] }

/-- Processing a sequence of spans one at a time through the
orchestrator. -/
def processAll (st : Stores) : List Span → Except PyError Stores
  | [] => .ok st
  | s :: rest => do
    let st1 ← Span.persistFull st s
    processAll st1 rest

/-- Models datetime.isoformat: an injective rendering of the embedded
integer timestamp as a string. -/
def isoformat (t : Int) : String := toString t

/-- The plain mapping produced by Span to_rest_object. -/
structure RestSpan where
  name : String
  context : List (String × String)
  kind : String
  parent_id : Option String
  start_time : String
  end_time : String
  status : SpanStatus
  attributes : List (String × String)
  links : List SpanLink
  events : List SpanEvent
  resource_attributes : List (String × String)
  external_event_data_uris : List String
deriving DecidableEq, Repr

/-- The loop of Span to_rest_object for a lazily loaded span: pop the
reference id out of each event attributes dict (a KeyError when absent)
and collect the ids. -/
def pop_event_ids : List SpanEvent → Except PyError (List String × List SpanEvent)
  | [] => .ok ([], [])
  | e :: rest =>
    match e.attributes.lookup SPAN_EVENTS_ATTRIBUTES_EVENT_ID with
    | none => .error (.keyError SPAN_EVENTS_ATTRIBUTES_EVENT_ID)
    | some eid => do
      let (ids, evs) ← pop_event_ids rest
      .ok (eid :: ids,
        { e with attributes := e.attributes.eraseP (fun kv => kv.1 == SPAN_EVENTS_ATTRIBUTES_EVENT_ID) } :: evs)

/-- Span to_rest_object: timestamps become isoformat strings; with an
empty external_event_ids list the event reference ids are moved out of
the event attributes into external_event_data_uris, otherwise the
recorded ids are used and the events are serialized as they are. -/
def Span.to_rest_object (s : Span) : Except PyError RestSpan :=
  if s.external_event_ids.length == 0 then do
    let (uris, evs) ← pop_event_ids s.events
    .ok
      { name := s.name
        context := s.context
        kind := s.kind
        parent_id := s.parent_id
        start_time := isoformat s.start_time
        end_time := isoformat s.end_time
        status := s.status
        attributes := s.attributes
        links := s.links
        events := evs
        resource_attributes := s.resource_attributes
        external_event_data_uris := uris }
  else
    .ok
      { name := s.name
        context := s.context
        kind := s.kind
        parent_id := s.parent_id
        start_time := isoformat s.start_time
        end_time := isoformat s.end_time
        status := s.status
        attributes := s.attributes
        links := s.links
        events := s.events
        resource_attributes := s.resource_attributes
        external_event_data_uris := s.external_event_ids }

/-- Whether a row with the given line_run_id exists, the condition the
try clauses of the source probe with a get. -/
def containsRow (rows : List LineRun) (lrid : String) : Bool :=
  (rows.find? (fun r => r.line_run_id == lrid)).isSome

/-- The number of rows of the LineRun store carrying the given
line_run_id. -/
def countLineRuns (rows : List LineRun) (lrid : String) : Nat :=
  rows.countP (fun r => r.line_run_id == lrid)

/-- The parent branch of reconstruction cannot raise: either there is an
explicit reference, or there is no batch reference, or the line number
attribute is present. -/
def wfParent (s : Span) : Bool :=
  (s.attributes.lookup SpanAttributeFieldName.REFERENCED_LINE_RUN_ID).isSome ||
  (s.attributes.lookup SpanAttributeFieldName.REFERENCED_BATCH_RUN_ID).isNone ||
  (s.attributes.lookup SpanAttributeFieldName.LINE_NUMBER).isSome

/-- A token attribute, when present, parses as an integer. -/
def wfToken (s : Span) (key : String) : Bool :=
  match s.attributes.lookup key with
  | none => true
  | some v => (pyInt? v).isSome

/-- The first event with the given reserved name, when there is one,
carries a payload attribute. -/
def wfEvent (s : Span) (nm : String) : Bool :=
  match s.events.find? (fun e => e.name == nm) with
  | none => true
  | some e => (e.attributes.lookup SPAN_EVENTS_ATTRIBUTE_PAYLOAD).isSome

/-- A span whose processing raises no Python exception: the parent branch
is safe, and for a root span the token attributes parse and the reserved
events carry payloads. -/
def wf (s : Span) : Bool :=
  match s.parent_id with
  | none =>
    wfParent s &&
    wfToken s SpanAttributeFieldName.COMPLETION_TOKEN_COUNT &&
    wfToken s SpanAttributeFieldName.PROMPT_TOKEN_COUNT &&
    wfToken s SpanAttributeFieldName.TOTAL_TOKEN_COUNT &&
    wfEvent s SPAN_EVENTS_NAME_PF_INPUTS &&
    wfEvent s SPAN_EVENTS_NAME_PF_OUTPUT
  | some _ => wfParent s

/-- Splitting a successful Except bind into its two successful stages. -/
theorem except_bind_ok {α β : Type} {x : Except PyError α} {f : α → Except PyError β} {b : β}
    (h : x >>= f = Except.ok b) : ∃ a, x = Except.ok a ∧ f a = Except.ok b := by
  cases x with
  | ok a => exact ⟨a, rfl, h⟩
  | error e => simp [Bind.bind, Except.bind] at h

/-- Distinct calls of the uuid generator give distinct ids. -/
theorem genEventId_inj {m n : Nat} (h : genEventId m = genEventId n) : m = n := by
  unfold genEventId at h
  injection h with h2
  have h3 := congrArg List.length h2
  simpa using h3

/-- A successful parse_common_args carries the derived line run id. -/
theorem parse_common_args_id {rows : List LineRun} {s : Span} {ca : CommonArgs}
    (h : LineRun.parse_common_args rows s = .ok ca) :
    ca.line_run_id = LineRun.determine_line_run_id s := by
  unfold LineRun.parse_common_args at h
  obtain ⟨v, hv, hf⟩ := except_bind_ok h
  simp only [Except.ok.injEq] at hf
  rw [← hf]

/-- A successful root reconstruction carries the derived line run id. -/
theorem from_root_span_id {rows : List LineRun} {s : Span} {lr : LineRun}
    (h : LineRun.from_root_span rows s = .ok lr) :
    lr.line_run_id = LineRun.determine_line_run_id s := by
  unfold LineRun.from_root_span at h
  obtain ⟨ca, hca, h⟩ := except_bind_ok h
  obtain ⟨c, hc, h⟩ := except_bind_ok h
  obtain ⟨p, hp, h⟩ := except_bind_ok h
  obtain ⟨t, ht, h⟩ := except_bind_ok h
  obtain ⟨i, hi, h⟩ := except_bind_ok h
  obtain ⟨o, ho, h⟩ := except_bind_ok h
  simp only [Except.ok.injEq] at h
  rw [← h]
  exact parse_common_args_id hca

/-- A successful non-root reconstruction carries the derived line run
id. -/
theorem from_non_root_span_id {rows : List LineRun} {s : Span} {lr : LineRun}
    (h : LineRun.from_non_root_span rows s = .ok lr) :
    lr.line_run_id = LineRun.determine_line_run_id s := by
  unfold LineRun.from_non_root_span at h
  obtain ⟨ca, hca, h⟩ := except_bind_ok h
  simp only [Except.ok.injEq] at h
  rw [← h]
  exact parse_common_args_id hca

/-- A span with a safe parent branch resolves its parent without an
exception. -/
theorem determine_parent_id_ok (rows : List LineRun) {s : Span} (h : wfParent s = true) :
    ∃ v, LineRun.determine_parent_id rows s = .ok v := by
  unfold wfParent at h
  unfold LineRun.determine_parent_id
  cases hr : s.attributes.lookup SpanAttributeFieldName.REFERENCED_LINE_RUN_ID with
  | some v => exact ⟨some v, rfl⟩
  | none =>
    cases hb : s.attributes.lookup SpanAttributeFieldName.REFERENCED_BATCH_RUN_ID with
    | none => exact ⟨none, rfl⟩
    | some runId =>
      cases hl : s.attributes.lookup SpanAttributeFieldName.LINE_NUMBER with
      | some ln => exact ⟨_, rfl⟩
      | none => simp [hr, hb, hl] at h

/-- With a safe parent branch, parse_common_args succeeds. -/
theorem parse_common_args_ok (rows : List LineRun) {s : Span} (h : wfParent s = true) :
    ∃ ca, LineRun.parse_common_args rows s = .ok ca := by
  obtain ⟨v, hv⟩ := determine_parent_id_ok rows h
  exact ⟨_, by unfold LineRun.parse_common_args; rw [hv]; rfl⟩

/-- A parsable token attribute makes tokenCount succeed. -/
theorem tokenCount_ok {s : Span} {key : String} (h : wfToken s key = true) :
    ∃ n, tokenCount s key = .ok n := by
  unfold wfToken at h
  cases hk : s.attributes.lookup key with
  | none => exact ⟨0, by simp [tokenCount, hk]⟩
  | some v =>
    rw [hk] at h
    simp only at h
    cases hi : pyInt? v with
    | some n => exact ⟨n, by simp [tokenCount, hk, hi]⟩
    | none => simp [hi] at h

/-- When the first event with the reserved name carries a payload key,
the payload scan succeeds. -/
theorem payload_scan_ok (nm : String) : ∀ (l : List SpanEvent),
    (match l.find? (fun e => e.name == nm) with
     | none => true
     | some e => (e.attributes.lookup SPAN_EVENTS_ATTRIBUTE_PAYLOAD).isSome) = true →
    ∃ v, payload_scan nm l = .ok v
  | [], _ => ⟨none, rfl⟩
  | e :: rest, h => by
    unfold payload_scan
    rw [List.find?_cons] at h
    cases hn : (e.name == nm) with
    | true =>
      rw [hn] at h
      simp only at h
      cases hp : e.attributes.lookup SPAN_EVENTS_ATTRIBUTE_PAYLOAD with
      | some p => exact ⟨some p, by simp [hn, hp]⟩
      | none => simp [hp] at h
    | false =>
      rw [hn] at h
      simp only at h
      obtain ⟨v, hv⟩ := payload_scan_ok nm rest h
      exact ⟨v, by simp [hn, hv]⟩

/-- A well-formed root span reconstructs successfully. -/
theorem from_root_span_ok (rows : List LineRun) {s : Span}
    (hp : s.parent_id = none) (h : wf s = true) :
    ∃ lr, LineRun.from_root_span rows s = .ok lr := by
  unfold wf at h
  rw [hp] at h
  simp only [Bool.and_eq_true] at h
  obtain ⟨⟨⟨⟨⟨hpar, hc⟩, hpr⟩, ht⟩, hin⟩, hout⟩ := h
  obtain ⟨ca, hca⟩ := parse_common_args_ok rows hpar
  obtain ⟨c, hcv⟩ := tokenCount_ok hc
  obtain ⟨p, hpv⟩ := tokenCount_ok hpr
  obtain ⟨t, htv⟩ := tokenCount_ok ht
  obtain ⟨i, hiv⟩ := payload_scan_ok SPAN_EVENTS_NAME_PF_INPUTS s.events (by
    unfold wfEvent at hin; exact hin)
  obtain ⟨o, hov⟩ := payload_scan_ok SPAN_EVENTS_NAME_PF_OUTPUT s.events (by
    unfold wfEvent at hout; exact hout)
  cases hfr : LineRun.from_root_span rows s with
  | ok lr => exact ⟨lr, rfl⟩
  | error e =>
    exfalso
    unfold LineRun.from_root_span at hfr
    rw [hca] at hfr
    simp only [Bind.bind, Except.bind] at hfr
    rw [hcv] at hfr
    simp only at hfr
    rw [hpv] at hfr
    simp only at hfr
    rw [htv] at hfr
    simp only [LineRun.get_inputs_from_span] at hfr
    rw [hiv] at hfr
    simp only [LineRun.get_outputs_from_span] at hfr
    rw [hov] at hfr
    simp at hfr

/-- A span with a safe parent branch reconstructs its placeholder
successfully. -/
theorem from_non_root_span_ok (rows : List LineRun) {s : Span} (h : wfParent s = true) :
    ∃ lr, LineRun.from_non_root_span rows s = .ok lr := by
  obtain ⟨ca, hca⟩ := parse_common_args_ok rows h
  exact ⟨_, by unfold LineRun.from_non_root_span; rw [hca]; rfl⟩

/-- The get of the LineRun store succeeds exactly on the first stored row
with the requested id. -/
theorem get_eq_ok_iff {rows : List LineRun} {L : String} {r : LineRun} :
    ORMLineRun.get rows L = .ok r ↔ rows.find? (fun q => q.line_run_id == L) = some r := by
  unfold ORMLineRun.get
  cases hf : rows.find? (fun q => q.line_run_id == L) with
  | some x => simp
  | none => simp

/-- The get of the LineRun store raises exactly when no row with the
requested id is stored. -/
theorem get_eq_err_iff {rows : List LineRun} {L : String} :
    ORMLineRun.get rows L = .error PyError.lineRunNotFound ↔
      rows.find? (fun q => q.line_run_id == L) = none := by
  unfold ORMLineRun.get
  cases hf : rows.find? (fun q => q.line_run_id == L) with
  | some x => simp
  | none => simp

/-- try_update always succeeds: the only exception of the inner get is the
NotFound the except clause consumes. -/
theorem try_update_ok (lr : LineRun) (rows : List LineRun) :
    ∃ rows2, LineRun.try_update lr rows = .ok rows2 := by
  unfold LineRun.try_update ORMLineRun.get
  cases hf : rows.find? (fun r => r.line_run_id == lr.line_run_id) with
  | some r => exact ⟨_, rfl⟩
  | none => exact ⟨_, rfl⟩

/-- try_create always succeeds: the only exception of the inner get is the
NotFound the except clause consumes. -/
theorem try_create_ok (lr : LineRun) (rows : List LineRun) :
    ∃ rows2, LineRun.try_create lr rows = .ok rows2 := by
  unfold LineRun.try_create ORMLineRun.get
  cases hf : rows.find? (fun r => r.line_run_id == lr.line_run_id) with
  | some r => exact ⟨_, rfl⟩
  | none => exact ⟨_, rfl⟩

/-- A well-formed span runs the line-run upsert without an exception. -/
theorem persist_line_run_ok (rows : List LineRun) {s : Span} (h : wf s = true) :
    ∃ rows2, Span.persist_line_run rows s = .ok rows2 := by
  cases hp : s.parent_id with
  | none =>
    obtain ⟨lr, hlr⟩ := from_root_span_ok rows hp h
    obtain ⟨rows2, h2⟩ := try_update_ok lr rows
    refine ⟨rows2, ?_⟩
    simp only [Span.persist_line_run, hp]
    rw [hlr]
    simp only [Bind.bind, Except.bind]
    exact h2
  | some q =>
    have hpar : wfParent s = true := by
      unfold wf at h
      rw [hp] at h
      simpa using h
    obtain ⟨lr, hlr⟩ := from_non_root_span_ok rows hpar
    obtain ⟨rows2, h2⟩ := try_create_ok lr rows
    refine ⟨rows2, ?_⟩
    simp only [Span.persist_line_run, hp]
    rw [hlr]
    simp only [Bind.bind, Except.bind]
    exact h2

/-- Inserting a row adds one to the count of its id and leaves other
counts unchanged. -/
theorem countLineRuns_persistRow (lr : LineRun) (rows : List LineRun) (L : String) :
    countLineRuns (ORMLineRun.persistRow lr rows) L =
      countLineRuns rows L + (if lr.line_run_id == L then 1 else 0) := by
  unfold countLineRuns ORMLineRun.persistRow
  rw [List.countP_append]
  simp [List.countP_cons]

/-- Updating rows in place never changes how many rows carry any id. -/
theorem countLineRuns_updateRow (lr : LineRun) (rows : List LineRun) (L : String) :
    countLineRuns (ORMLineRun.updateRow lr rows) L = countLineRuns rows L := by
  unfold countLineRuns ORMLineRun.updateRow
  rw [List.countP_map]
  apply List.countP_congr
  intro r _
  simp only [Function.comp]
  by_cases hq : (r.line_run_id == lr.line_run_id) = true
  · have : r.line_run_id = lr.line_run_id := by simpa using hq
    simp [hq, this]
  · simp [hq]

/-- The count of an id is zero exactly when the store has no row with
that id. -/
theorem countLineRuns_zero_iff (rows : List LineRun) (L : String) :
    countLineRuns rows L = 0 ↔ rows.find? (fun r => r.line_run_id == L) = none := by
  unfold countLineRuns
  rw [List.countP_eq_zero, List.find?_eq_none]

/-- How one line-run upsert changes the number of rows carrying the id
the span derives: a first span creates the single row, any further span
leaves the count alone. -/
theorem persist_line_run_count (rows : List LineRun) {s : Span} {L : String}
    (hwf : wf s = true) (hL : LineRun.determine_line_run_id s = L) :
    ∃ rows2, Span.persist_line_run rows s = .ok rows2 ∧
      countLineRuns rows2 L = (if countLineRuns rows L = 0 then 1 else countLineRuns rows L) := by
  cases hp : s.parent_id with
  | none =>
    obtain ⟨lr, hlr⟩ := from_root_span_ok rows hp hwf
    have hid : lr.line_run_id = L := by rw [from_root_span_id hlr, hL]
    cases hf : rows.find? (fun r => r.line_run_id == lr.line_run_id) with
    | some r =>
      refine ⟨ORMLineRun.updateRow lr rows, ?_, ?_⟩
      · simp only [Span.persist_line_run, hp]
        rw [hlr]
        simp only [Bind.bind, Except.bind]
        unfold LineRun.try_update ORMLineRun.get
        rw [hf]
      · rw [countLineRuns_updateRow]
        have hne : countLineRuns rows L ≠ 0 := by
          intro hc
          rw [countLineRuns_zero_iff] at hc
          rw [hid] at hf
          rw [hc] at hf
          cases hf
        simp [hne]
    | none =>
      refine ⟨ORMLineRun.persistRow lr rows, ?_, ?_⟩
      · simp only [Span.persist_line_run, hp]
        rw [hlr]
        simp only [Bind.bind, Except.bind]
        unfold LineRun.try_update ORMLineRun.get
        rw [hf]
      · rw [countLineRuns_persistRow]
        have h0 : countLineRuns rows L = 0 := by
          rw [countLineRuns_zero_iff]
          rw [hid] at hf
          exact hf
        rw [h0]
        simp [hid]
  | some q =>
    have hpar : wfParent s = true := by
      unfold wf at hwf
      rw [hp] at hwf
      simpa using hwf
    obtain ⟨lr, hlr⟩ := from_non_root_span_ok rows hpar
    have hid : lr.line_run_id = L := by rw [from_non_root_span_id hlr, hL]
    cases hf : rows.find? (fun r => r.line_run_id == lr.line_run_id) with
    | some r =>
      refine ⟨rows, ?_, ?_⟩
      · simp only [Span.persist_line_run, hp]
        rw [hlr]
        simp only [Bind.bind, Except.bind]
        unfold LineRun.try_create ORMLineRun.get
        rw [hf]
      · have hne : countLineRuns rows L ≠ 0 := by
          intro hc
          rw [countLineRuns_zero_iff] at hc
          rw [hid] at hf
          rw [hc] at hf
          cases hf
        simp [hne]
    | none =>
      refine ⟨ORMLineRun.persistRow lr rows, ?_, ?_⟩
      · simp only [Span.persist_line_run, hp]
        rw [hlr]
        simp only [Bind.bind, Except.bind]
        unfold LineRun.try_create ORMLineRun.get
        rw [hf]
      · rw [countLineRuns_persistRow]
        have h0 : countLineRuns rows L = 0 := by
          rw [countLineRuns_zero_iff]
          rw [hid] at hf
          exact hf
        rw [h0]
        simp [hid]

/-- A row found before an insert is still the row found after it. -/
theorem find?_persistRow_some {rows : List LineRun} {lr r : LineRun} {L : String}
    (h : rows.find? (fun q => q.line_run_id == L) = some r) :
    (ORMLineRun.persistRow lr rows).find? (fun q => q.line_run_id == L) = some r := by
  unfold ORMLineRun.persistRow
  rw [List.find?_append, h]
  rfl

/-- After an update keyed on an id that was present, the first row with
that id holds the new values. -/
theorem get_updateRow {rows : List LineRun} {lr r : LineRun}
    (h : ORMLineRun.get rows lr.line_run_id = .ok r) :
    ORMLineRun.get (ORMLineRun.updateRow lr rows) lr.line_run_id = .ok lr := by
  induction rows with
  | nil =>
    rw [get_eq_ok_iff] at h
    cases h
  | cons q rest ih =>
    rw [get_eq_ok_iff] at h
    rw [get_eq_ok_iff]
    unfold ORMLineRun.updateRow
    rw [List.map_cons]
    rw [List.find?_cons] at h
    by_cases hq : (q.line_run_id == lr.line_run_id) = true
    · simp [hq, List.find?_cons]
    · have hq2 : (q.line_run_id == lr.line_run_id) = false := by simpa using hq
      rw [hq2] at h
      simp only at h
      have h2 := ih (by rw [get_eq_ok_iff]; exact h)
      rw [get_eq_ok_iff] at h2
      unfold ORMLineRun.updateRow at h2
      have hhead : (if (q.line_run_id == lr.line_run_id) = true then lr else q) = q := by
        rw [hq2]
        simp
      rw [hhead, List.find?_cons, hq2]
      simp only
      exact h2

/-- Inserting a row with an id that was absent makes it the row the get
returns. -/
theorem get_persistRow_none {rows : List LineRun} {lr : LineRun}
    (h : rows.find? (fun q => q.line_run_id == lr.line_run_id) = none) :
    ORMLineRun.get (ORMLineRun.persistRow lr rows) lr.line_run_id = .ok lr := by
  rw [get_eq_ok_iff]
  unfold ORMLineRun.persistRow
  rw [List.find?_append, h]
  simp

/-- When the line-run upsert succeeds, the whole orchestrator run
succeeds and its LineRun store is the upsert result. -/
theorem persistFull_ok_lineRuns {st : Stores} {s : Span} {rows2 : List LineRun}
    (h : Span.persist_line_run st.lineRuns s = .ok rows2) :
    ∃ st1, Span.persistFull st s = .ok st1 ∧ st1.lineRuns = rows2 := by
  unfold Span.persistFull
  rw [h]
  simp only [Bind.bind, Except.bind]
  cases hpe : Span.persist_events st.events s with
  | mk edb s2 => exact ⟨_, rfl, rfl⟩

/-- A non-root upsert never disturbs the row an earlier get returned. -/
theorem nonroot_preserves_get {rows rows2 : List LineRun} {s : Span} {L : String} {r : LineRun}
    (hp : s.parent_id.isSome = true) (hrun : Span.persist_line_run rows s = .ok rows2)
    (hget : ORMLineRun.get rows L = .ok r) :
    ORMLineRun.get rows2 L = .ok r := by
  cases hps : s.parent_id with
  | none => rw [hps] at hp; simp at hp
  | some x =>
    simp only [Span.persist_line_run, hps] at hrun
    obtain ⟨lr, hlr, htc⟩ := except_bind_ok hrun
    unfold LineRun.try_create at htc
    cases hg : ORMLineRun.get rows lr.line_run_id with
    | ok w =>
      rw [hg] at htc
      replace htc : rows = rows2 := by simpa using htc
      rw [← htc]
      exact hget
    | error e =>
      rw [hg] at htc
      cases e with
      | lineRunNotFound =>
        replace htc : ORMLineRun.persistRow lr rows = rows2 := by simpa using htc
        rw [← htc]
        rw [get_eq_ok_iff] at hget ⊢
        exact find?_persistRow_some hget
      | keyError k => simp at htc
      | valueError => simp at htc
      | eventNotFound => simp at htc

/-- After a root upsert, the get by the derived id returns exactly the
authoritative values just built. -/
theorem root_step_get {rows rows2 : List LineRun} {s : Span} {lr : LineRun}
    (hp : s.parent_id = none) (hfr : LineRun.from_root_span rows s = .ok lr)
    (hrun : Span.persist_line_run rows s = .ok rows2) :
    ORMLineRun.get rows2 lr.line_run_id = .ok lr := by
  simp only [Span.persist_line_run, hp] at hrun
  rw [hfr] at hrun
  simp only [Bind.bind, Except.bind] at hrun
  unfold LineRun.try_update at hrun
  cases hg : ORMLineRun.get rows lr.line_run_id with
  | ok r =>
    rw [hg] at hrun
    replace hrun : ORMLineRun.updateRow lr rows = rows2 := by simpa using hrun
    rw [← hrun]
    exact get_updateRow hg
  | error e =>
    rw [hg] at hrun
    cases e with
    | lineRunNotFound =>
      replace hrun : ORMLineRun.persistRow lr rows = rows2 := by simpa using hrun
      rw [← hrun]
      exact get_persistRow_none (by rw [get_eq_err_iff] at hg; exact hg)
    | keyError k => simp at hrun
    | valueError => simp at hrun
    | eventNotFound => simp at hrun

/-- Processing any sequence of well-formed spans that all derive one
line run id: the run succeeds, and the count of rows with that id goes
to one when it was zero and the sequence is nonempty, and stays what it
was otherwise. -/
theorem processAll_count {L : String} : ∀ (l : List Span) (st : Stores),
    (∀ s ∈ l, wf s = true ∧ LineRun.determine_line_run_id s = L) →
    ∃ st2, processAll st l = .ok st2 ∧
      countLineRuns st2.lineRuns L =
        (if countLineRuns st.lineRuns L = 0 ∧ l ≠ [] then 1 else countLineRuns st.lineRuns L)
  | [], st, _ => ⟨st, rfl, by simp⟩
  | s :: rest, st, h => by
    have hs := h s (List.mem_cons_self s rest)
    have hrest : ∀ s2 ∈ rest, wf s2 = true ∧ LineRun.determine_line_run_id s2 = L :=
      fun s2 hs2 => h s2 (List.mem_cons_of_mem s hs2)
    obtain ⟨rows2, hpl, hcount⟩ := persist_line_run_count st.lineRuns hs.1 hs.2
    obtain ⟨st1, hfull, hlr1⟩ := persistFull_ok_lineRuns hpl
    obtain ⟨st2, hrec, hcount2⟩ := processAll_count rest st1 hrest
    refine ⟨st2, ?_, ?_⟩
    · simp only [processAll]
      rw [hfull]
      simp only [Bind.bind, Except.bind]
      exact hrec
    · rw [hcount2, hlr1]
      by_cases h0 : countLineRuns st.lineRuns L = 0
      · have hc1 : countLineRuns rows2 L = 1 := by rw [hcount, if_pos h0]
        rw [hc1]
        simp [h0]
      · have hc : countLineRuns rows2 L = countLineRuns st.lineRuns L := by
          rw [hcount, if_neg h0]
        rw [hc]
        simp [h0]

/-- Processing any sequence of well-formed non-root spans preserves the
row an earlier get returned. -/
theorem processAll_preserves_get {L : String} {r : LineRun} : ∀ (l : List Span) (st : Stores),
    (∀ s ∈ l, s.parent_id.isSome = true ∧ wf s = true) →
    ORMLineRun.get st.lineRuns L = .ok r →
    ∃ st2, processAll st l = .ok st2 ∧ ORMLineRun.get st2.lineRuns L = .ok r
  | [], st, _, hget => ⟨st, rfl, hget⟩
  | s :: rest, st, h, hget => by
    have hs := h s (List.mem_cons_self s rest)
    have hrest : ∀ s2 ∈ rest, s2.parent_id.isSome = true ∧ wf s2 = true :=
      fun s2 hs2 => h s2 (List.mem_cons_of_mem s hs2)
    obtain ⟨rows2, hpl⟩ := persist_line_run_ok st.lineRuns hs.2
    obtain ⟨st1, hfull, hlr1⟩ := persistFull_ok_lineRuns hpl
    have hget1 : ORMLineRun.get st1.lineRuns L = .ok r := by
      rw [hlr1]
      exact nonroot_preserves_get hs.1 hpl hget
    obtain ⟨st2, hrec, hget2⟩ := processAll_preserves_get rest st1 hrest hget1
    refine ⟨st2, ?_, hget2⟩
    simp only [processAll]
    rw [hfull]
    simp only [Bind.bind, Except.bind]
    exact hrec

/-- Parent resolution only ever raises a KeyError. -/
theorem determine_parent_id_err {rows : List LineRun} {s : Span} {e : PyError}
    (h : LineRun.determine_parent_id rows s = .error e) : ∃ k, e = PyError.keyError k := by
  unfold LineRun.determine_parent_id at h
  cases h1 : s.attributes.lookup SpanAttributeFieldName.REFERENCED_LINE_RUN_ID with
  | some v => rw [h1] at h; simp at h
  | none =>
    rw [h1] at h
    cases h2 : s.attributes.lookup SpanAttributeFieldName.REFERENCED_BATCH_RUN_ID with
    | none => rw [h2] at h; simp at h
    | some runId =>
      rw [h2] at h
      cases h3 : s.attributes.lookup SpanAttributeFieldName.LINE_NUMBER with
      | some ln => rw [h3] at h; simp at h
      | none =>
        rw [h3] at h
        simp only [Except.error.injEq] at h
        exact ⟨SpanAttributeFieldName.LINE_NUMBER, h.symm⟩

/-- parse_common_args only ever raises a KeyError. -/
theorem parse_common_args_err {rows : List LineRun} {s : Span} {e : PyError}
    (h : LineRun.parse_common_args rows s = .error e) : ∃ k, e = PyError.keyError k := by
  unfold LineRun.parse_common_args at h
  cases hd : LineRun.determine_parent_id rows s with
  | ok v => rw [hd] at h; simp [Bind.bind, Except.bind] at h
  | error e2 =>
    rw [hd] at h
    simp only [Bind.bind, Except.bind, Except.error.injEq] at h
    rw [← h]
    exact determine_parent_id_err hd

/-- The int() of a token attribute only ever raises a ValueError. -/
theorem tokenCount_err {s : Span} {key : String} {e : PyError}
    (h : tokenCount s key = .error e) : e = PyError.valueError := by
  unfold tokenCount at h
  cases h1 : s.attributes.lookup key with
  | none => rw [h1] at h; simp at h
  | some v =>
    rw [h1] at h
    simp only at h
    cases h2 : pyInt? v with
    | some n => rw [h2] at h; simp at h
    | none => rw [h2] at h; simp only [Except.error.injEq] at h; exact h.symm

/-- The payload scan only ever raises a KeyError. -/
theorem payload_scan_err {nm : String} : ∀ {l : List SpanEvent} {e : PyError},
    payload_scan nm l = .error e → ∃ k, e = PyError.keyError k
  | [], e, h => by simp [payload_scan] at h
  | ev :: rest, e, h => by
    unfold payload_scan at h
    by_cases hn : (ev.name == nm) = true
    · rw [if_pos hn] at h
      cases hp : ev.attributes.lookup SPAN_EVENTS_ATTRIBUTE_PAYLOAD with
      | some p => rw [hp] at h; simp at h
      | none =>
        rw [hp] at h
        simp only [Except.error.injEq] at h
        exact ⟨SPAN_EVENTS_ATTRIBUTE_PAYLOAD, h.symm⟩
    · rw [if_neg hn] at h
      exact payload_scan_err h

/-- Root reconstruction only ever raises a KeyError or a ValueError,
never the NotFound of the LineRun store. -/
theorem from_root_span_err {rows : List LineRun} {s : Span} {e : PyError}
    (h : LineRun.from_root_span rows s = .error e) :
    e = PyError.valueError ∨ ∃ k, e = PyError.keyError k := by
  unfold LineRun.from_root_span at h
  cases hca : LineRun.parse_common_args rows s with
  | error e2 =>
    rw [hca] at h
    simp only [Bind.bind, Except.bind, Except.error.injEq] at h
    rw [← h]
    exact Or.inr (parse_common_args_err hca)
  | ok ca =>
    rw [hca] at h
    simp only [Bind.bind, Except.bind] at h
    cases hc : tokenCount s SpanAttributeFieldName.COMPLETION_TOKEN_COUNT with
    | error e2 =>
      rw [hc] at h
      simp only [Except.error.injEq] at h
      rw [← h]
      exact Or.inl (tokenCount_err hc)
    | ok c =>
      rw [hc] at h
      simp only at h
      cases hp : tokenCount s SpanAttributeFieldName.PROMPT_TOKEN_COUNT with
      | error e2 =>
        rw [hp] at h
        simp only [Except.error.injEq] at h
        rw [← h]
        exact Or.inl (tokenCount_err hp)
      | ok p =>
        rw [hp] at h
        simp only at h
        cases ht : tokenCount s SpanAttributeFieldName.TOTAL_TOKEN_COUNT with
        | error e2 =>
          rw [ht] at h
          simp only [Except.error.injEq] at h
          rw [← h]
          exact Or.inl (tokenCount_err ht)
        | ok t =>
          rw [ht] at h
          simp only [LineRun.get_inputs_from_span] at h
          cases hi : payload_scan SPAN_EVENTS_NAME_PF_INPUTS s.events with
          | error e2 =>
            rw [hi] at h
            simp only [Except.error.injEq] at h
            rw [← h]
            exact Or.inr (payload_scan_err hi)
          | ok i =>
            rw [hi] at h
            simp only [LineRun.get_outputs_from_span] at h
            cases ho : payload_scan SPAN_EVENTS_NAME_PF_OUTPUT s.events with
            | error e2 =>
              rw [ho] at h
              simp only [Except.error.injEq] at h
              rw [← h]
              exact Or.inr (payload_scan_err ho)
            | ok o =>
              rw [ho] at h
              simp at h

/-- Placeholder reconstruction only ever raises a KeyError, never the
NotFound of the LineRun store. -/
theorem from_non_root_span_err {rows : List LineRun} {s : Span} {e : PyError}
    (h : LineRun.from_non_root_span rows s = .error e) : ∃ k, e = PyError.keyError k := by
  unfold LineRun.from_non_root_span at h
  cases hca : LineRun.parse_common_args rows s with
  | error e2 =>
    rw [hca] at h
    simp only [Bind.bind, Except.bind, Except.error.injEq] at h
    rw [← h]
    exact parse_common_args_err hca
  | ok ca => rw [hca] at h; simp [Bind.bind, Except.bind] at h

/-- A store state with nothing persisted yet. -/
def emptyStores : Stores :=
  { lineRuns := [], events := { rows := [], nextId := 0 }, spans := [] }

/-- An empty Event store with the generator at zero. -/
def edb0 : EventDB := { rows := [], nextId := 0 }

/-- The concrete inputs event carried by the sample root span. -/
def pfInputsEvent : SpanEvent :=
  { name := SPAN_EVENTS_NAME_PF_INPUTS
    timestamp := "t0"
    attributes := [(SPAN_EVENTS_ATTRIBUTE_PAYLOAD, "in-payload")] }

/-- A concrete root span of trace abc123 used to instantiate theorems. -/
def rootSpanA : Span :=
  { trace_id := "abc123"
    span_id := "root1"
    name := "flow"
    context := [("trace_id", "abc123"), ("span_id", "root1")]
    kind := "1"
    parent_id := none
    start_time := 10
    end_time := 25
    status := { status_code := "Ok", description := "" }
    attributes := [(SpanAttributeFieldName.COMPLETION_TOKEN_COUNT, "3"),
                   (SpanAttributeFieldName.PROMPT_TOKEN_COUNT, "5"),
                   (SpanAttributeFieldName.TOTAL_TOKEN_COUNT, "8")]
    links := []
    events := [pfInputsEvent]
    resource_attributes := [(SpanResourceAttributesFieldName.COLLECTION, "col")]
    external_event_ids := [] }

/-- A concrete non-root span of the same trace. -/
def childSpanA : Span :=
  { trace_id := "abc123"
    span_id := "child1"
    name := "llm-call"
    context := [("trace_id", "abc123"), ("span_id", "child1")]
    kind := "1"
    parent_id := some "root1"
    start_time := 11
    end_time := 12
    status := { status_code := "Ok", description := "" }
    attributes := []
    links := []
    events := []
    resource_attributes := [(SpanResourceAttributesFieldName.COLLECTION, "col")]
    external_event_ids := [] }

/-- C1: for every finite sequence of spans of one trace that all derive
the same line run id, processed one at a time in any order, with the
root first, last, or repeated, starting from a store with no row for
that id, processing succeeds and the LineRun store ends with exactly one
row for that line_run_id. -/
theorem lineRun_single_row_per_id (spans : List Span) (T L : String) (st0 : Stores)
    (hne : spans ≠ [])
    (_htrace : ∀ s ∈ spans, s.trace_id = T)
    (hwf : ∀ s ∈ spans, wf s = true)
    (hL : ∀ s ∈ spans, LineRun.determine_line_run_id s = L)
    (h0 : countLineRuns st0.lineRuns L = 0) :
    ∃ st2, processAll st0 spans = .ok st2 ∧ countLineRuns st2.lineRuns L = 1 := by
  obtain ⟨st2, hrun, hcount⟩ := processAll_count spans st0 (fun s hs => ⟨hwf s hs, hL s hs⟩)
  refine ⟨st2, hrun, ?_⟩
  rw [hcount, if_pos ⟨h0, hne⟩]

/-- Witness for C1: a child arriving first, then the root, then the root
again, leaves exactly one row for the trace id. -/
theorem lineRun_single_row_per_id_witness :
    ∃ st2, processAll emptyStores [childSpanA, rootSpanA, rootSpanA] = .ok st2 ∧
      countLineRuns st2.lineRuns "abc123" = 1 :=
  lineRun_single_row_per_id [childSpanA, rootSpanA, rootSpanA] "abc123" "abc123" emptyStores
    (by decide) (by decide) (by decide) (by decide) (by decide)

/-- C2: once the root span of a trace has been processed, the row stored
under the derived line run id equals the authoritative LineRun the
reconstructor derives from that root span, in particular its status,
end_time, duration, inputs and outputs; and processing any further
non-root spans leaves that row unchanged. -/
theorem root_precedence (st : Stores) (root : Span) (post : List Span)
    (hroot : root.parent_id = none) (hwf : wf root = true)
    (hpost : ∀ s ∈ post, s.parent_id.isSome = true ∧ wf s = true) :
    ∃ lr st1 st2,
      LineRun.from_root_span st.lineRuns root = .ok lr ∧
      Span.persistFull st root = .ok st1 ∧
      ORMLineRun.get st1.lineRuns (LineRun.determine_line_run_id root) = .ok lr ∧
      processAll st1 post = .ok st2 ∧
      ORMLineRun.get st2.lineRuns (LineRun.determine_line_run_id root) = .ok lr := by
  obtain ⟨lr, hfr⟩ := from_root_span_ok st.lineRuns hroot hwf
  obtain ⟨rows2, hpl⟩ := persist_line_run_ok st.lineRuns hwf
  obtain ⟨st1, hfull, hlr1⟩ := persistFull_ok_lineRuns hpl
  have hid := from_root_span_id hfr
  have hget1 : ORMLineRun.get st1.lineRuns (LineRun.determine_line_run_id root) = .ok lr := by
    rw [hlr1, ← hid]
    exact root_step_get hroot hfr hpl
  obtain ⟨st2, hrec, hget2⟩ := processAll_preserves_get post st1 hpost hget1
  exact ⟨lr, st1, st2, hfr, hfull, hget1, hrec, hget2⟩

/-- Witness for C2: the concrete root followed by a concrete child. -/
theorem root_precedence_witness :
    ∃ lr st1 st2,
      LineRun.from_root_span emptyStores.lineRuns rootSpanA = .ok lr ∧
      Span.persistFull emptyStores rootSpanA = .ok st1 ∧
      ORMLineRun.get st1.lineRuns (LineRun.determine_line_run_id rootSpanA) = .ok lr ∧
      processAll st1 [childSpanA] = .ok st2 ∧
      ORMLineRun.get st2.lineRuns (LineRun.determine_line_run_id rootSpanA) = .ok lr :=
  root_precedence emptyStores rootSpanA [childSpanA] rfl (by decide) (by decide)

/-- C3: the line-run upsert of one span never surfaces the NotFound of
the store lookup; a root span builds the authoritative LineRun and
updates the existing row or creates one, and a non-root span builds the
placeholder and creates a row only when none exists, writing nothing
otherwise. -/
theorem persist_line_run_branch_spec (rows : List LineRun) (s : Span) :
    (Span.persist_line_run rows s ≠ .error PyError.lineRunNotFound) ∧
    (s.parent_id = none →
      Span.persist_line_run rows s =
        (LineRun.from_root_span rows s).bind (fun lr =>
          .ok (if containsRow rows lr.line_run_id then ORMLineRun.updateRow lr rows
               else ORMLineRun.persistRow lr rows))) ∧
    (∀ p, s.parent_id = some p →
      Span.persist_line_run rows s =
        (LineRun.from_non_root_span rows s).bind (fun lr =>
          .ok (if containsRow rows lr.line_run_id then rows
               else ORMLineRun.persistRow lr rows))) := by
  refine ⟨?_, ?_, ?_⟩
  · cases hp : s.parent_id with
    | none =>
      simp only [Span.persist_line_run, hp]
      cases hfr : LineRun.from_root_span rows s with
      | error e =>
        simp only [Bind.bind, Except.bind, ne_eq, Except.error.injEq]
        intro hcon
        rcases from_root_span_err hfr with h | ⟨k, h⟩ <;> rw [h] at hcon <;> cases hcon
      | ok lr =>
        obtain ⟨rows2, h2⟩ := try_update_ok lr rows
        simp only [Bind.bind, Except.bind]
        rw [h2]
        simp
    | some q =>
      simp only [Span.persist_line_run, hp]
      cases hfr : LineRun.from_non_root_span rows s with
      | error e =>
        simp only [Bind.bind, Except.bind, ne_eq, Except.error.injEq]
        intro hcon
        obtain ⟨k, h⟩ := from_non_root_span_err hfr
        rw [h] at hcon
        cases hcon
      | ok lr =>
        obtain ⟨rows2, h2⟩ := try_create_ok lr rows
        simp only [Bind.bind, Except.bind]
        rw [h2]
        simp
  · intro hp
    simp only [Span.persist_line_run, hp]
    cases hfr : LineRun.from_root_span rows s with
    | error e =>
      simp [Bind.bind, Except.bind]
    | ok lr =>
      simp only [Bind.bind, Except.bind]
      unfold LineRun.try_update ORMLineRun.get containsRow
      cases hf : rows.find? (fun r => r.line_run_id == lr.line_run_id) with
      | some r => simp [hf]
      | none => simp [hf]
  · intro p hp
    simp only [Span.persist_line_run, hp]
    cases hfr : LineRun.from_non_root_span rows s with
    | error e =>
      simp [Bind.bind, Except.bind]
    | ok lr =>
      simp only [Bind.bind, Except.bind]
      unfold LineRun.try_create ORMLineRun.get containsRow
      cases hf : rows.find? (fun r => r.line_run_id == lr.line_run_id) with
      | some r => simp [hf]
      | none => simp [hf]

/-- Witness for C3: the concrete root and child spans against an empty
store take the create branch of their respective upserts. -/
theorem persist_line_run_branch_spec_witness :
    Span.persist_line_run [] rootSpanA =
      (LineRun.from_root_span [] rootSpanA).bind (fun lr =>
        .ok (if containsRow [] lr.line_run_id then ORMLineRun.updateRow lr []
             else ORMLineRun.persistRow lr [])) ∧
    Span.persist_line_run [] childSpanA =
      (LineRun.from_non_root_span [] childSpanA).bind (fun lr =>
        .ok (if containsRow [] lr.line_run_id then []
             else ORMLineRun.persistRow lr [])) :=
  ⟨(persist_line_run_branch_spec [] rootSpanA).2.1 rfl,
   (persist_line_run_branch_spec [] childSpanA).2.2 "root1" rfl⟩

/-- A concrete ad-hoc span carrying an explicit line run id that differs
from its trace id. -/
def adhocSpan : Span :=
  { trace_id := "othertrace"
    span_id := "sa"
    name := "adhoc"
    context := []
    kind := "1"
    parent_id := none
    start_time := 0
    end_time := 1
    status := { status_code := "Ok", description := "" }
    attributes := [(SpanAttributeFieldName.LINE_RUN_ID, "xyz")]
    links := []
    events := []
    resource_attributes := []
    external_event_ids := [] }

/-- C6: the derived line run id is the explicit line-run-id attribute
when present, even when it differs from the trace id, and the trace id
otherwise. -/
theorem determine_line_run_id_spec (s : Span) :
    (∀ v, s.attributes.lookup SpanAttributeFieldName.LINE_RUN_ID = some v →
      LineRun.determine_line_run_id s = v) ∧
    (s.attributes.lookup SpanAttributeFieldName.LINE_RUN_ID = none →
      LineRun.determine_line_run_id s = s.trace_id) := by
  constructor
  · intro v hv
    unfold LineRun.determine_line_run_id
    rw [hv]
  · intro hv
    unfold LineRun.determine_line_run_id
    rw [hv]

/-- Witness for C6: the two identity-fallback examples of the spec. -/
theorem determine_line_run_id_spec_witness :
    LineRun.determine_line_run_id adhocSpan = "xyz" ∧
    LineRun.determine_line_run_id childSpanA = "abc123" :=
  ⟨(determine_line_run_id_spec adhocSpan).1 "xyz" (by decide),
   (determine_line_run_id_spec childSpanA).2 (by decide)⟩

/-- A stored line run for run1 line 2, the target of the batch-reference
lookup example. -/
def lineRunRow9 : LineRun :=
  { line_run_id := "lr9"
    trace_id := "t9"
    root_span_id := none
    inputs := none
    outputs := none
    start_time := 0
    end_time := none
    status := RUNNING_LINE_RUN_STATUS
    duration := none
    name := none
    kind := none
    collection := "default"
    cumulative_token_count := none
    parent_id := none
    run := some "run1"
    line_number := some "2"
    experiment := none
    session_id := none }

/-- A concrete non-root span referencing batch run run1 at line 2. -/
def batchChildSpan : Span :=
  { trace_id := "tb"
    span_id := "sb"
    name := "evalrow"
    context := []
    kind := "1"
    parent_id := some "pb"
    start_time := 0
    end_time := 1
    status := { status_code := "Ok", description := "" }
    attributes := [(SpanAttributeFieldName.REFERENCED_BATCH_RUN_ID, "run1"),
                   (SpanAttributeFieldName.LINE_NUMBER, "2")]
    links := []
    events := []
    resource_attributes := []
    external_event_ids := [] }

/-- C7: the derived parent is the explicit referenced line run id when
present; otherwise, with a referenced batch run id and a line number,
it is the id of the LineRun the store holds for that run and line
number pair when one exists and absent when none does; otherwise it is
absent. -/
theorem determine_parent_id_spec (rows : List LineRun) (s : Span) :
    (∀ v, s.attributes.lookup SpanAttributeFieldName.REFERENCED_LINE_RUN_ID = some v →
      LineRun.determine_parent_id rows s = .ok (some v)) ∧
    (s.attributes.lookup SpanAttributeFieldName.REFERENCED_LINE_RUN_ID = none →
      ∀ r ln, s.attributes.lookup SpanAttributeFieldName.REFERENCED_BATCH_RUN_ID = some r →
        s.attributes.lookup SpanAttributeFieldName.LINE_NUMBER = some ln →
        LineRun.determine_parent_id rows s =
          .ok ((ORMLineRun.get_with_run_and_line_number rows r ln).map (fun q => q.line_run_id))) ∧
    (s.attributes.lookup SpanAttributeFieldName.REFERENCED_LINE_RUN_ID = none →
      s.attributes.lookup SpanAttributeFieldName.REFERENCED_BATCH_RUN_ID = none →
      LineRun.determine_parent_id rows s = .ok none) := by
  refine ⟨?_, ?_, ?_⟩
  · intro v hv
    unfold LineRun.determine_parent_id
    rw [hv]
  · intro h1 r ln h2 h3
    unfold LineRun.determine_parent_id
    rw [h1, h2, h3]
  · intro h1 h2
    unfold LineRun.determine_parent_id
    rw [h1, h2]

/-- Witness for C7: the parent-linkage example of the spec, with and
without the prior LineRun, and a span with no references at all. -/
theorem determine_parent_id_spec_witness :
    LineRun.determine_parent_id [lineRunRow9] batchChildSpan = .ok (some "lr9") ∧
    LineRun.determine_parent_id [] batchChildSpan = .ok none ∧
    LineRun.determine_parent_id [] childSpanA = .ok none := by
  refine ⟨?_, ?_, ?_⟩
  · rw [(determine_parent_id_spec [lineRunRow9] batchChildSpan).2.1 (by decide) "run1" "2"
      (by decide) (by decide)]
    rfl
  · rw [(determine_parent_id_spec [] batchChildSpan).2.1 (by decide) "run1" "2"
      (by decide) (by decide)]
    rfl
  · exact (determine_parent_id_spec [] childSpanA).2.2 (by decide) (by decide)

/-- A concrete span carrying a batch reference but no line number. -/
def badBatchSpan : Span :=
  { trace_id := "tc"
    span_id := "sc"
    name := "evalrow"
    context := []
    kind := "1"
    parent_id := some "pc"
    start_time := 0
    end_time := 1
    status := { status_code := "Ok", description := "" }
    attributes := [(SpanAttributeFieldName.REFERENCED_BATCH_RUN_ID, "run1")]
    links := []
    events := []
    resource_attributes := []
    external_event_ids := [] }

/-- C10: a span with a referenced batch run id but no line number never
resolves to no parent: the batch branch indexes the line number
attribute directly, so without an explicit referenced line run id the
resolution raises the KeyError of that missing key. -/
theorem determine_parent_id_missing_line_number (rows : List LineRun) (s : Span)
    (hb : (s.attributes.lookup SpanAttributeFieldName.REFERENCED_BATCH_RUN_ID).isSome = true)
    (hl : s.attributes.lookup SpanAttributeFieldName.LINE_NUMBER = none) :
    LineRun.determine_parent_id rows s ≠ .ok none ∧
    (s.attributes.lookup SpanAttributeFieldName.REFERENCED_LINE_RUN_ID = none →
      LineRun.determine_parent_id rows s =
        .error (.keyError SpanAttributeFieldName.LINE_NUMBER)) := by
  constructor
  · unfold LineRun.determine_parent_id
    cases h1 : s.attributes.lookup SpanAttributeFieldName.REFERENCED_LINE_RUN_ID with
    | some v => simp
    | none =>
      cases h2 : s.attributes.lookup SpanAttributeFieldName.REFERENCED_BATCH_RUN_ID with
      | none => rw [h2] at hb; simp at hb
      | some r =>
        rw [hl]
        simp
  · intro h1
    unfold LineRun.determine_parent_id
    cases h2 : s.attributes.lookup SpanAttributeFieldName.REFERENCED_BATCH_RUN_ID with
    | none => rw [h2] at hb; simp at hb
    | some r =>
      rw [h1, hl]

/-- Witness for C10: the concrete span with a dangling batch reference. -/
theorem determine_parent_id_missing_line_number_witness :
    LineRun.determine_parent_id [] badBatchSpan ≠ .ok none ∧
    LineRun.determine_parent_id [] badBatchSpan =
      .error (.keyError SpanAttributeFieldName.LINE_NUMBER) := by
  have h := determine_parent_id_missing_line_number [] badBatchSpan (by decide) (by decide)
  exact ⟨h.1, h.2 (by decide)⟩

/-- C8: whenever root reconstruction succeeds, its cumulative token
count is present exactly when the total token attribute is strictly
positive, and then holds the completion, prompt and total values read
from the span attributes, each defaulting to 0 when absent. -/
theorem cumulative_token_count_spec (rows : List LineRun) (s : Span) (c p t : Int)
    (hc : tokenCount s SpanAttributeFieldName.COMPLETION_TOKEN_COUNT = .ok c)
    (hp : tokenCount s SpanAttributeFieldName.PROMPT_TOKEN_COUNT = .ok p)
    (ht : tokenCount s SpanAttributeFieldName.TOTAL_TOKEN_COUNT = .ok t) :
    ((LineRun.from_root_span rows s).map (fun lr => lr.cumulative_token_count) =
      (LineRun.from_root_span rows s).map (fun _ =>
        if t > 0 then some { completion := c, prompt := p, total := t } else none)) ∧
    (s.attributes.lookup SpanAttributeFieldName.COMPLETION_TOKEN_COUNT = none → c = 0) ∧
    (s.attributes.lookup SpanAttributeFieldName.PROMPT_TOKEN_COUNT = none → p = 0) ∧
    (s.attributes.lookup SpanAttributeFieldName.TOTAL_TOKEN_COUNT = none → t = 0) := by
  refine ⟨?_, ?_, ?_, ?_⟩
  · cases hfr : LineRun.from_root_span rows s with
    | error e => rfl
    | ok lr =>
      simp only [Except.map, Except.ok.injEq]
      unfold LineRun.from_root_span at hfr
      obtain ⟨ca, hca, hfr⟩ := except_bind_ok hfr
      obtain ⟨c2, hc2, hfr⟩ := except_bind_ok hfr
      obtain ⟨p2, hp2, hfr⟩ := except_bind_ok hfr
      obtain ⟨t2, ht2, hfr⟩ := except_bind_ok hfr
      obtain ⟨i, hi, hfr⟩ := except_bind_ok hfr
      obtain ⟨o, ho, hfr⟩ := except_bind_ok hfr
      rw [hc] at hc2
      rw [hp] at hp2
      rw [ht] at ht2
      simp only [Except.ok.injEq] at hc2 hp2 ht2 hfr
      rw [← hfr, ← hc2, ← hp2, ← ht2]
  · intro h0
    unfold tokenCount at hc
    rw [h0] at hc
    simp only [Except.ok.injEq] at hc
    exact hc.symm
  · intro h0
    unfold tokenCount at hp
    rw [h0] at hp
    simp only [Except.ok.injEq] at hp
    exact hp.symm
  · intro h0
    unfold tokenCount at ht
    rw [h0] at ht
    simp only [Except.ok.injEq] at ht
    exact ht.symm

/-- Witness for C8: completion 3, prompt 5, total 8 yields exactly that
dict, and a span with no token attributes (all three default to 0)
yields no dict. -/
theorem cumulative_token_count_spec_witness :
    ((LineRun.from_root_span [] rootSpanA).map (fun lr => lr.cumulative_token_count) =
      (LineRun.from_root_span [] rootSpanA).map (fun _ =>
        if (8 : Int) > 0 then some { completion := 3, prompt := 5, total := 8 } else none)) ∧
    ((LineRun.from_root_span [] childSpanA).map (fun lr => lr.cumulative_token_count) =
      (LineRun.from_root_span [] childSpanA).map (fun _ =>
        if (0 : Int) > 0 then some { completion := 0, prompt := 0, total := 0 } else none)) :=
  ⟨(cumulative_token_count_spec [] rootSpanA 3 5 8 (by decide) (by decide) (by decide)).1,
   (cumulative_token_count_spec [] childSpanA 0 0 0 (by decide) (by decide) (by decide)).1⟩

/-- Looking up any id other than the freshly drawn one is unaffected by
persisting a new event row. -/
theorem event_get_pushEvent_ne (tid sid : String) (db : EventDB) (e : SpanEvent) {eid : String}
    (h : eid ≠ genEventId db.nextId) :
    Event.get (pushEvent tid sid db e) eid = Event.get db eid := by
  unfold Event.get pushEvent
  rw [List.find?_cons]
  dsimp only
  have hb : (genEventId db.nextId == eid) = false := by
    simp only [beq_eq_false_iff_ne, ne_eq]
    exact fun hc => h hc.symm
  rw [hb]

/-- Looking up the freshly drawn id returns the event just persisted. -/
theorem event_get_pushEvent_self (tid sid : String) (db : EventDB) (e : SpanEvent) :
    Event.get (pushEvent tid sid db e) (genEventId db.nextId) = .ok e := by
  unfold Event.get pushEvent
  rw [List.find?_cons]
  dsimp only
  have hb : (genEventId db.nextId == genEventId db.nextId) = true := by simp
  rw [hb]

/-- The full behaviour of one externalization pass: the id generator
advances once per event, the event list keeps its length, ids outside
the freshly generated range resolve exactly as before, and every
position i ends as a single-entry reference to the i-th fresh id whose
stored payload is the original event at that position. -/
theorem persist_events_loop_spec (tid sid : String) : ∀ (l : List SpanEvent) (db : EventDB),
    ((persist_events_loop tid sid db l).1.nextId = db.nextId + l.length) ∧
    ((persist_events_loop tid sid db l).2.length = l.length) ∧
    (∀ eid2, (∀ j, db.nextId ≤ j → eid2 ≠ genEventId j) →
      Event.get (persist_events_loop tid sid db l).1 eid2 = Event.get db eid2) ∧
    (∀ i e, l[i]? = some e →
      ((persist_events_loop tid sid db l).2[i]? =
        some { e with attributes :=
          [(SPAN_EVENTS_ATTRIBUTES_EVENT_ID, genEventId (db.nextId + i))] }) ∧
      Event.get (persist_events_loop tid sid db l).1 (genEventId (db.nextId + i)) = .ok e)
  | [], db => by
    refine ⟨rfl, rfl, fun _ _ => rfl, fun i e hi => by simp at hi⟩
  | e0 :: rest, db => by
    have ih := persist_events_loop_spec tid sid rest (pushEvent tid sid db e0)
    have hkey : persist_events_loop tid sid db (e0 :: rest) =
        ((persist_events_loop tid sid (pushEvent tid sid db e0) rest).1,
         { e0 with attributes := [(SPAN_EVENTS_ATTRIBUTES_EVENT_ID, genEventId db.nextId)] } ::
           (persist_events_loop tid sid (pushEvent tid sid db e0) rest).2) := rfl
    refine ⟨?_, ?_, ?_, ?_⟩
    · rw [hkey]
      show (persist_events_loop tid sid (pushEvent tid sid db e0) rest).1.nextId =
        db.nextId + (rest.length + 1)
      rw [ih.1]
      show db.nextId + 1 + rest.length = db.nextId + (rest.length + 1)
      omega
    · rw [hkey]
      show ({ e0 with attributes := [(SPAN_EVENTS_ATTRIBUTES_EVENT_ID, genEventId db.nextId)] } ::
        (persist_events_loop tid sid (pushEvent tid sid db e0) rest).2).length = rest.length + 1
      rw [List.length_cons, ih.2.1]
    · intro eid2 hfr
      rw [hkey]
      show Event.get (persist_events_loop tid sid (pushEvent tid sid db e0) rest).1 eid2 =
        Event.get db eid2
      have hstep := ih.2.2.1 eid2 (fun j hj => hfr j (Nat.le_trans (Nat.le_succ db.nextId) hj))
      rw [hstep]
      exact event_get_pushEvent_ne tid sid db e0 (hfr db.nextId (Nat.le_refl _))
    · intro i e hi
      cases i with
      | zero =>
        simp only [List.getElem?_cons_zero, Option.some.injEq] at hi
        subst hi
        refine ⟨?_, ?_⟩
        · rw [hkey]
          simp
        · rw [hkey]
          show Event.get (persist_events_loop tid sid (pushEvent tid sid db e0) rest).1
            (genEventId (db.nextId + 0)) = .ok e0
          have hstep := ih.2.2.1 (genEventId (db.nextId + 0)) (fun j hj hc => by
            have hinj := genEventId_inj hc
            have hj2 : db.nextId + 1 ≤ j := hj
            omega)
          rw [hstep]
          exact event_get_pushEvent_self tid sid db e0
      | succ i2 =>
        simp only [List.getElem?_cons_succ] at hi
        have ihh := ih.2.2.2 i2 e hi
        have harith : (pushEvent tid sid db e0).nextId + i2 = db.nextId + (i2 + 1) := by
          show db.nextId + 1 + i2 = db.nextId + (i2 + 1)
          omega
        refine ⟨?_, ?_⟩
        · rw [hkey]
          show ({ e0 with attributes :=
              [(SPAN_EVENTS_ATTRIBUTES_EVENT_ID, genEventId db.nextId)] } ::
            (persist_events_loop tid sid (pushEvent tid sid db e0) rest).2)[i2 + 1]? =
            some { e with attributes :=
              [(SPAN_EVENTS_ATTRIBUTES_EVENT_ID, genEventId (db.nextId + (i2 + 1)))] }
          rw [List.getElem?_cons_succ, ihh.1, harith]
        · rw [hkey]
          show Event.get (persist_events_loop tid sid (pushEvent tid sid db e0) rest).1
            (genEventId (db.nextId + (i2 + 1))) = .ok e
          rw [← harith]
          exact ihh.2

/-- C4: after externalization every event of the span holds exactly one
attribute entry, a freshly generated reference id, and resolving that id
against the Event store returns the original pre-externalization event,
name, timestamp and attributes included. -/
theorem persist_events_round_trip (db : EventDB) (s : Span) (i : Nat) (e : SpanEvent)
    (h : s.events[i]? = some e) :
    ((Span.persist_events db s).2.events[i]? =
      some { e with attributes :=
        [(SPAN_EVENTS_ATTRIBUTES_EVENT_ID, genEventId (db.nextId + i))] }) ∧
    Event.get (Span.persist_events db s).1 (genEventId (db.nextId + i)) = .ok e :=
  (persist_events_loop_spec s.trace_id s.span_id s.events db).2.2.2 i e h

/-- Witness for C4: the single event of the sample root span. -/
theorem persist_events_round_trip_witness :
    ((Span.persist_events edb0 rootSpanA).2.events[0]? =
      some { pfInputsEvent with attributes :=
        [(SPAN_EVENTS_ATTRIBUTES_EVENT_ID, genEventId (edb0.nextId + 0))] }) ∧
    Event.get (Span.persist_events edb0 rootSpanA).1 (genEventId (edb0.nextId + 0)) =
      .ok pfInputsEvent :=
  persist_events_round_trip edb0 rootSpanA 0 pfInputsEvent (by decide)

/-- Counterexample for C5: a second externalization pass of the same
span is not a no-op on the event attributes; the reference entry is
replaced by a fresh one. -/
theorem persist_events_second_pass_changes :
    ¬ ((Span.persist_events (Span.persist_events edb0 rootSpanA).1
          (Span.persist_events edb0 rootSpanA).2).2.events.map (fun e => e.attributes) =
       (Span.persist_events edb0 rootSpanA).2.events.map (fun e => e.attributes)) := by
  decide

/-- C5 as amended: externalization is applied unconditionally, so a
second pass replaces each reference entry with a fresh reference whose
stored payload is the reference-only event of the first pass, a
reference to a reference rather than a no-op. -/
theorem persist_events_reexternalization_wraps (db : EventDB) (s : Span) (i : Nat) (e : SpanEvent)
    (h : s.events[i]? = some e) :
    ((Span.persist_events (Span.persist_events db s).1 (Span.persist_events db s).2).2.events[i]? =
      some { e with attributes :=
        [(SPAN_EVENTS_ATTRIBUTES_EVENT_ID,
          genEventId ((Span.persist_events db s).1.nextId + i))] }) ∧
    (Event.get (Span.persist_events (Span.persist_events db s).1 (Span.persist_events db s).2).1
        (genEventId ((Span.persist_events db s).1.nextId + i)) =
      .ok { e with attributes :=
        [(SPAN_EVENTS_ATTRIBUTES_EVENT_ID, genEventId (db.nextId + i))] }) ∧
    genEventId ((Span.persist_events db s).1.nextId + i) ≠ genEventId (db.nextId + i) := by
  have h1 := (persist_events_loop_spec s.trace_id s.span_id s.events db).2.2.2 i e h
  have h2 := (persist_events_loop_spec (Span.persist_events db s).2.trace_id
      (Span.persist_events db s).2.span_id (Span.persist_events db s).2.events
      (Span.persist_events db s).1).2.2.2 i
      { e with attributes := [(SPAN_EVENTS_ATTRIBUTES_EVENT_ID, genEventId (db.nextId + i))] }
      h1.1
  refine ⟨h2.1, h2.2, ?_⟩
  intro hc
  have heq := genEventId_inj hc
  have hlen : (Span.persist_events db s).1.nextId = db.nextId + s.events.length :=
    (persist_events_loop_spec s.trace_id s.span_id s.events db).1
  have hi : i < s.events.length := by
    by_contra hge
    push_neg at hge
    rw [List.getElem?_eq_none hge] at h
    cases h
  rw [hlen] at heq
  omega

/-- Witness for the amended C5: the sample root span externalized twice
over the empty Event store. -/
theorem persist_events_reexternalization_wraps_witness :
    ((Span.persist_events (Span.persist_events edb0 rootSpanA).1
        (Span.persist_events edb0 rootSpanA).2).2.events[0]? =
      some { pfInputsEvent with attributes :=
        [(SPAN_EVENTS_ATTRIBUTES_EVENT_ID,
          genEventId ((Span.persist_events edb0 rootSpanA).1.nextId + 0))] }) ∧
    (Event.get (Span.persist_events (Span.persist_events edb0 rootSpanA).1
        (Span.persist_events edb0 rootSpanA).2).1
        (genEventId ((Span.persist_events edb0 rootSpanA).1.nextId + 0)) =
      .ok { pfInputsEvent with attributes :=
        [(SPAN_EVENTS_ATTRIBUTES_EVENT_ID, genEventId (edb0.nextId + 0))] }) ∧
    genEventId ((Span.persist_events edb0 rootSpanA).1.nextId + 0) ≠
      genEventId (edb0.nextId + 0) :=
  persist_events_reexternalization_wraps edb0 rootSpanA 0 pfInputsEvent (by decide)

/-- An event with the reference entry popped out of its attributes. -/
def stripEventId (e : SpanEvent) : SpanEvent :=
  { e with attributes := e.attributes.eraseP (fun kv => kv.1 == SPAN_EVENTS_ATTRIBUTES_EVENT_ID) }

/-- When every event carries a reference id, the pop loop collects the
ids in order and strips the reference key from each event. -/
theorem pop_event_ids_spec : ∀ {l : List SpanEvent},
    (∀ e ∈ l, (e.attributes.lookup SPAN_EVENTS_ATTRIBUTES_EVENT_ID).isSome = true) →
    pop_event_ids l = .ok
      (l.map (fun e => (e.attributes.lookup SPAN_EVENTS_ATTRIBUTES_EVENT_ID).getD ""),
       l.map stripEventId)
  | [], _ => rfl
  | e :: rest, h => by
    have he := h e (List.mem_cons_self e rest)
    have hrest := pop_event_ids_spec (fun e2 h2 => h e2 (List.mem_cons_of_mem e h2))
    unfold pop_event_ids
    cases hl : e.attributes.lookup SPAN_EVENTS_ATTRIBUTES_EVENT_ID with
    | none => rw [hl] at he; simp at he
    | some eid =>
      simp only [Bind.bind, Except.bind]
      rw [hrest]
      simp [hl, stripEventId]

/-- C9: serialization renders both timestamps with isoformat and fills
external_event_data_uris from exactly the events that still carry only
a reference at serialization time: with ids recorded during resolution
the list is those ids and the events serialize as they stand, and with
no recorded ids every reference id is moved out of the event attributes
into the list. -/
theorem to_rest_object_spec (s : Span) :
    (∀ r, Span.to_rest_object s = .ok r →
      r.start_time = isoformat s.start_time ∧ r.end_time = isoformat s.end_time) ∧
    (s.external_event_ids ≠ [] →
      ∃ r, Span.to_rest_object s = .ok r ∧
        r.events = s.events ∧ r.external_event_data_uris = s.external_event_ids) ∧
    (s.external_event_ids = [] →
      (∀ e ∈ s.events, (e.attributes.lookup SPAN_EVENTS_ATTRIBUTES_EVENT_ID).isSome = true) →
      ∃ r, Span.to_rest_object s = .ok r ∧
        r.external_event_data_uris =
          s.events.map (fun e => (e.attributes.lookup SPAN_EVENTS_ATTRIBUTES_EVENT_ID).getD "") ∧
        r.events = s.events.map stripEventId) := by
  refine ⟨?_, ?_, ?_⟩
  · intro r hr
    unfold Span.to_rest_object at hr
    by_cases h0 : (s.external_event_ids.length == 0) = true
    · rw [if_pos h0] at hr
      obtain ⟨p, hp, hr⟩ := except_bind_ok hr
      obtain ⟨uris, evs⟩ := p
      simp only [Except.ok.injEq] at hr
      rw [← hr]
      exact ⟨rfl, rfl⟩
    · rw [if_neg h0] at hr
      simp only [Except.ok.injEq] at hr
      rw [← hr]
      exact ⟨rfl, rfl⟩
  · intro hne
    have h0 : ¬ ((s.external_event_ids.length == 0) = true) := by
      simp only [beq_iff_eq, List.length_eq_zero]
      exact hne
    unfold Span.to_rest_object
    rw [if_neg h0]
    exact ⟨_, rfl, rfl, rfl⟩
  · intro h0 hall
    have hp := pop_event_ids_spec hall
    have h0b : (s.external_event_ids.length == 0) = true := by rw [h0]; rfl
    unfold Span.to_rest_object
    rw [if_pos h0b]
    simp only [Bind.bind, Except.bind]
    rw [hp]
    exact ⟨_, rfl, rfl, rfl⟩

/-- A concrete span whose events were resolved back to payloads, with
the reference ids recorded during resolution. -/
def resolvedSpan : Span :=
  { trace_id := "td"
    span_id := "sd"
    name := "flow"
    context := []
    kind := "1"
    parent_id := none
    start_time := 3
    end_time := 4
    status := { status_code := "Ok", description := "" }
    attributes := []
    links := []
    events := [pfInputsEvent]
    resource_attributes := []
    external_event_ids := ["u"] }

/-- A concrete lazily loaded span whose single event still carries only
a reference id. -/
def lazySpan : Span :=
  { trace_id := "te"
    span_id := "se"
    name := "flow"
    context := []
    kind := "1"
    parent_id := none
    start_time := 5
    end_time := 6
    status := { status_code := "Ok", description := "" }
    attributes := []
    links := []
    events := [{ name := "ev"
                 timestamp := "t1"
                 attributes := [(SPAN_EVENTS_ATTRIBUTES_EVENT_ID, "u")] }]
    resource_attributes := []
    external_event_ids := [] }

/-- Witness for C9: both serialization scenarios on concrete spans. -/
theorem to_rest_object_spec_witness :
    (∃ r, Span.to_rest_object resolvedSpan = .ok r ∧
      r.events = resolvedSpan.events ∧
      r.external_event_data_uris = resolvedSpan.external_event_ids) ∧
    (∃ r, Span.to_rest_object lazySpan = .ok r ∧
      r.external_event_data_uris =
        lazySpan.events.map (fun e => (e.attributes.lookup SPAN_EVENTS_ATTRIBUTES_EVENT_ID).getD "") ∧
      r.events = lazySpan.events.map stripEventId) :=
  ⟨(to_rest_object_spec resolvedSpan).2.1 (by decide),
   (to_rest_object_spec lazySpan).2.2 rfl (by decide)⟩
